import Mathlib

/-!
Shallow embedding of the mapcode utility (`src/utility/mapcode.cpp`) of the
mapcode-cpp repository: the corpus-generation and round-trip self-verification
engine.  Doubles are modelled as exact rationals (`ℚ`), C strings as `List Char`,
the external codec calls (`encodeLatLonToMapcodes_Deprecated`,
`decodeMapcodeToLatLon`, `convertTerritoryIsoNameToCode`, `rand`/`srand`,
`time`) as explicit parameters holding their returned values, and the
stdout/stderr/exit effects as explicit result values.
-/

/-! ## Global constants (mapcode.cpp lines 54-62) -/

def NORMAL_ERROR : ℤ := 1

def INTERNAL_ERROR : ℤ := 2

def PI : ℚ := 3.14159265358979323846

def SHOW_PROGRESS : ℤ := 125

def DELTA : ℚ := 0.001

/-! ## Coordinate wraparound normalization (mapcode.cpp lines 284-295)

`generateAndOutputMapcodes` starts with four `while` loops:

    while (lon > 180.0)  { lon -= 360.0; }
    while (lon < -180.0) { lon += 360.0; }
    while (lat > 90.0)   { lat -= 180.0; }
    while (lat < -90.0)  { lat += 180.0; }

`wrapDown` embeds the first loop shape (subtract `step` while above `hi`) and
`wrapUp` the second (add `step` while below `lo`); the two longitude loops and
the two latitude loops are the four instances below. -/

def wrapDown (hi step : ℚ) (hs : 0 < step) (x : ℚ) : ℚ :=
  if _h : x > hi then wrapDown hi step hs (x - step) else x
termination_by (⌈(x - hi) / step⌉).toNat
decreasing_by
  have hne : step ≠ 0 := ne_of_gt hs
  have h1 : (0 : ℤ) < ⌈(x - hi) / step⌉ :=
    Int.ceil_pos.mpr (div_pos (by linarith) hs)
  have h2 : (x - step - hi) / step = (x - hi) / step - 1 := by
    field_simp
    ring
  simp only [h2, Int.ceil_sub_one]
  omega

def wrapUp (lo step : ℚ) (hs : 0 < step) (x : ℚ) : ℚ :=
  if _h : x < lo then wrapUp lo step hs (x + step) else x
termination_by (⌈(lo - x) / step⌉).toNat
decreasing_by
  have hne : step ≠ 0 := ne_of_gt hs
  have h1 : (0 : ℤ) < ⌈(lo - x) / step⌉ :=
    Int.ceil_pos.mpr (div_pos (by linarith) hs)
  have h2 : (lo - (x + step)) / step = (lo - x) / step - 1 := by
    field_simp
    ring
  simp only [h2, Int.ceil_sub_one]
  omega

/-- Longitude normalization: the two `lon` loops of mapcode.cpp lines 284-289. -/
def normLon (lon : ℚ) : ℚ :=
  wrapUp (-180) 360 (by norm_num) (wrapDown 180 360 (by norm_num) lon)

/-- Latitude normalization: the two `lat` loops of mapcode.cpp lines 290-295. -/
def normLat (lat : ℚ) : ℚ :=
  wrapUp (-90) 180 (by norm_num) (wrapDown 90 180 (by norm_num) lat)

theorem wrapDown_spec (hi step : ℚ) (hs : 0 < step) (x : ℚ) :
    wrapDown hi step hs x ≤ hi ∧
      (hi - step < wrapDown hi step hs x ∨ wrapDown hi step hs x = x) := by
  rw [wrapDown]
  split_ifs with h
  · have ih := wrapDown_spec hi step hs (x - step)
    refine ⟨ih.1, Or.inl ?_⟩
    rcases ih.2 with h2 | h2
    · exact h2
    · rw [h2]; linarith
  · exact ⟨le_of_not_lt h, Or.inr rfl⟩
termination_by (⌈(x - hi) / step⌉).toNat
decreasing_by
  have hne : step ≠ 0 := ne_of_gt hs
  have h1 : (0 : ℤ) < ⌈(x - hi) / step⌉ :=
    Int.ceil_pos.mpr (div_pos (by linarith) hs)
  have h2 : (x - step - hi) / step = (x - hi) / step - 1 := by
    field_simp
    ring
  simp only [h2, Int.ceil_sub_one]
  omega

theorem wrapUp_spec (lo step : ℚ) (hs : 0 < step) (x : ℚ) :
    lo ≤ wrapUp lo step hs x ∧
      (wrapUp lo step hs x < lo + step ∨ wrapUp lo step hs x = x) := by
  rw [wrapUp]
  split_ifs with h
  · have ih := wrapUp_spec lo step hs (x + step)
    refine ⟨ih.1, Or.inl ?_⟩
    rcases ih.2 with h2 | h2
    · exact h2
    · rw [h2]; linarith
  · exact ⟨le_of_not_lt h, Or.inr rfl⟩
termination_by (⌈(lo - x) / step⌉).toNat
decreasing_by
  have hne : step ≠ 0 := ne_of_gt hs
  have h1 : (0 : ℤ) < ⌈(lo - x) / step⌉ :=
    Int.ceil_pos.mpr (div_pos (by linarith) hs)
  have h2 : (lo - (x + step)) / step = (lo - x) / step - 1 := by
    field_simp
    ring
  simp only [h2, Int.ceil_sub_one]
  omega

theorem wrapDown_of_not_gt (hi step : ℚ) (hs : 0 < step) (x : ℚ) (h : ¬ x > hi) :
    wrapDown hi step hs x = x := by
  rw [wrapDown]
  exact dif_neg h

theorem wrapUp_of_not_lt (lo step : ℚ) (hs : 0 < step) (x : ℚ) (h : ¬ x < lo) :
    wrapUp lo step hs x = x := by
  rw [wrapUp]
  exact dif_neg h

theorem normLon_of_range (lon : ℚ) (h1 : ¬ lon > 180) (h2 : ¬ lon < -180) :
    normLon lon = lon := by
  rw [normLon, wrapDown_of_not_gt _ _ _ _ h1, wrapUp_of_not_lt _ _ _ _ h2]

theorem normLat_of_range (lat : ℚ) (h1 : ¬ lat > 90) (h2 : ¬ lat < -90) :
    normLat lat = lat := by
  rw [normLat, wrapDown_of_not_gt _ _ _ _ h1, wrapUp_of_not_lt _ _ _ _ h2]

theorem normLon_mem (lon : ℚ) : -180 ≤ normLon lon ∧ normLon lon ≤ 180 := by
  rw [normLon]
  have hd := wrapDown_spec 180 360 (by norm_num) lon
  have hu := wrapUp_spec (-180) 360 (by norm_num) (wrapDown 180 360 (by norm_num) lon)
  refine ⟨hu.1, ?_⟩
  rcases hu.2 with h | h
  · linarith
  · rw [h]; exact hd.1

theorem normLat_mem (lat : ℚ) : -90 ≤ normLat lat ∧ normLat lat ≤ 90 := by
  rw [normLat]
  have hd := wrapDown_spec 90 180 (by norm_num) lat
  have hu := wrapUp_spec (-90) 180 (by norm_num) (wrapDown 90 180 (by norm_num) lat)
  refine ⟨hu.1, ?_⟩
  rcases hu.2 with h | h
  · linarith
  · rw [h]; exact hd.1

/-! ## Statistics (mapcode.cpp lines 69-73, 342-348, 354-359)

The five global counters are gathered into one state record that is passed
explicitly.  `resetStatistics` is the function of lines 354-359 (note: the
source does NOT touch `totalNrOfResults` there); `updateStatistics` is the
tail of `generateAndOutputMapcodes` (lines 342-347). -/

structure RunStatistics where
  totalNrOfPoints : ℤ
  totalNrOfResults : ℤ
  largestNrOfResults : ℤ
  latLargestNrOfResults : ℚ
  lonLargestNrOfResults : ℚ
deriving DecidableEq

def resetStatistics (s : RunStatistics) (nrOfPoints : ℤ) : RunStatistics :=
  { s with
    totalNrOfPoints := nrOfPoints
    largestNrOfResults := 0
    latLargestNrOfResults := 0
    lonLargestNrOfResults := 0 }

def updateStatistics (s : RunStatistics) (nrResults : ℤ) (lat lon : ℚ) : RunStatistics :=
  let s1 :=
    if nrResults > s.largestNrOfResults then
      { s with
        largestNrOfResults := nrResults
        latLargestNrOfResults := lat
        lonLargestNrOfResults := lon }
    else s
  { s1 with totalNrOfResults := s1.totalNrOfResults + nrResults }

/-! ## Random-mode seeding (mapcode.cpp lines 631-640)

    if (random) {
        if (argc == 5) { const int seed = atoi(argv[4]); srand((unsigned int) seed); }
        else           { srand((unsigned int) time(0)); }
    }

`srand`/`time` are external; the embedded function computes the value the
program passes to `srand`: the seed argument itself whenever one is supplied
on the command line (argc == 5), and the wall-clock time only when no seed
argument is supplied. -/

def srandValue (seedArg : Option ℤ) (wallClockTime : ℤ) : ℤ :=
  match seedArg with
  | some seed => seed
  | none => wallClockTime

/-! ## Spherical projection output step (mapcode.cpp lines 49, 144-146, 174-180)

Doubles in this corner are modelled by `DblVal`: either an exact rational or
the IEEE not-a-number, so that the claim about NaN handling is statable.
`my_isnan` is the macro of line 49, literally `#define my_isnan(x) (false)`.
`radToDegD` is `radToDeg` (line 144: `(rad / PI) * 180.0`) lifted to `DblVal`
(any arithmetic on NaN yields NaN).  `unitToLatLonDegOut` is the final step of
`unitToLatLonDeg` (lines 178-179):

    *latDeg = my_isnan(latRad) ? 90.0 : radToDeg(latRad);
    *lonDeg = my_isnan(lonRad) ? 180.0 : radToDeg(lonRad);

the trigonometric computation of `latRad`/`lonRad` (lines 166-175) is left
abstract: the two angles are parameters. -/

inductive DblVal where
  | val (q : ℚ)
  | nan
deriving DecidableEq

def my_isnan (_x : DblVal) : Bool := false

def radToDegD : DblVal → DblVal
  | DblVal.val q => DblVal.val ((q / PI) * 180)
  | DblVal.nan => DblVal.nan

def unitToLatLonDegOut (latRad lonRad : DblVal) : DblVal × DblVal :=
  ((if my_isnan latRad then DblVal.val 90 else radToDegD latRad),
   (if my_isnan lonRad then DblVal.val 180 else radToDegD lonRad))

/-! ## Boundary-mode probe points (mapcode.cpp lines 558-595)

`mminforec` is the boundary record of the codec's database (microdegree
integers); `boundaryProbes` lists, in emission order, the 13 probe points the
boundary mode feeds to `generateAndOutputMapcodes` for one record. -/

structure Mminforec where
  minx : ℤ
  miny : ℤ
  maxx : ℤ
  maxy : ℤ
deriving DecidableEq

def boundaryProbes (mm : Mminforec) : List (ℚ × ℚ) :=
  let minLon : ℚ := (mm.minx : ℚ) / 1000000
  let maxLon : ℚ := (mm.maxx : ℚ) / 1000000
  let minLat : ℚ := (mm.miny : ℚ) / 1000000
  let maxLat : ℚ := (mm.maxy : ℚ) / 1000000
  -- "Try center." (lines 573-576)
  let lat := (maxLat - minLat) / 2
  let lon := (maxLon - minLon) / 2
  let d : ℚ := 0.000001
  [(lat, lon),
   -- "Try corners." (lines 578-582)
   (minLat, minLon), (minLat, maxLon), (maxLat, minLon), (maxLat, maxLon),
   -- "Try JUST inside." (lines 584-589)
   (minLat + d, minLon + d), (minLat + d, maxLon - d),
   (maxLat - d, minLon + d), (maxLat - d, maxLon - d),
   -- "Try JUST outside." (lines 591-595)
   (minLat - d, minLon - d), (minLat - d, maxLon + d),
   (maxLat + d, minLon - d), (maxLat + d, maxLon + d)]

/-- The center of a boundary record's bounding box, modelled from the claim
("latitude (minLat+maxLat)/2 and longitude (minLon+maxLon)/2"), for comparison
with the first entry of `boundaryProbes`. -/
def boxCenter (mm : Mminforec) : ℚ × ℚ :=
  (((mm.miny : ℚ) / 1000000 + (mm.maxy : ℚ) / 1000000) / 2,
   ((mm.minx : ℚ) / 1000000 + (mm.maxx : ℚ) / 1000000) / 2)

/-! ## Record emission (mapcode.cpp lines 279-348)

`generateAndOutputMapcodes(lat, lon, iShowError, extraDigits, useXYZ)`
normalizes the coordinates, calls the external encoder, and prints one output
record.  The encoder is external: its returned count (`nrResults`, an `int`
that is `<= 0` on failure) and its result strings are parameters here.  The
outcome models the observable effect on stdout / the process:

  * `exitError c` - the process terminates via `exit(c)` before printing;
  * `record n lat lon aliases` - a record with header count `n` (printed
    verbatim, lines 320/323) and one `<territory> <mapcode>` line per alias
    (the loop of lines 325-337 runs for `j < nrResults`).

The optional `x y z` header fields of the XYZ variant (computed from the same
normalized lat/lon, line 319-320) and the self-check calls inside the alias
loop (modelled separately below) are elided. -/

inductive GenOutcome where
  | exitError (code : ℤ)
  | record (aliasCount : ℤ) (lat lon : ℚ) (aliases : List (List Char × List Char))
deriving DecidableEq

def generateAndOutputMapcodes (nrResults : ℤ) (results : List (List Char × List Char))
    (lat lon : ℚ) (iShowError : Bool) : GenOutcome :=
  let lon1 := normLon lon
  let lat1 := normLat lat
  if nrResults ≤ 0 ∧ iShowError = true then GenOutcome.exitError NORMAL_ERROR
  else GenOutcome.record nrResults lat1 lon1 (results.take nrResults.toNat)

/-! ## Territory matching in the encode-direction self check (mapcode.cpp lines 199-242)

Strings are `List Char`.  `strstrDash` is `strstr(s, "-")`: the first suffix of
`s` starting with a dash, or `none` for the C null pointer.  `foundTerritoryMin`
is the pointer set up in lines 223-226:

    char *foundTerritoryMin = strstr(foundTerritory, "-");
    if (foundTerritoryMin && (strlen(foundTerritoryMin) > 0)) { ++foundTerritoryMin; }

`territoryMinMatches` is the comparison `strcmp(territory, foundTerritoryMin) == 0`
of line 229; when `foundTerritoryMin` is `none` the C code passes a null pointer
to `strcmp` (undefined behavior), so the embedding guards that branch and lets
the comparison fail. -/

def strstrDash : List Char → Option (List Char)
  | [] => none
  | c :: cs => if c = '-' then some (c :: cs) else strstrDash cs

def foundTerritoryMin (foundTerritory : List Char) : Option (List Char) :=
  match strstrDash foundTerritory with
  | some suf => if suf.length > 0 then some suf.tail else some suf
  | none => none

def territoryMinMatches (territory foundTerritory : List Char) : Bool :=
  match foundTerritoryMin foundTerritory with
  | some minT => territory == minT
  | none => false

/-- The per-result condition of mapcode.cpp lines 228-230:
`found = (((strcmp(territory, foundTerritory) == 0) ||
(strcmp(territory, foundTerritoryMin) == 0)) && (strcmp(mapcode, foundMapcode) == 0))`. -/
def resultMatches (territory mapcode foundMapcode foundTerritory : List Char) : Bool :=
  ((territory == foundTerritory) || territoryMinMatches territory foundTerritory) &&
    (mapcode == foundMapcode)

/-- The scan loop of mapcode.cpp lines 215-231 (`for (i = 0; !found && (i < nrResults); ++i)`)
over the result pairs `(results[2i], results[2i+1]) = (mapcode, territory)`. -/
def scanResults (territory mapcode : List Char) :
    List (List Char × List Char) → Bool
  | [] => false
  | (foundMapcode, foundTerritory) :: rest =>
    if resultMatches territory mapcode foundMapcode foundTerritory then true
    else scanResults territory mapcode rest

/-! ## The two self checks (mapcode.cpp lines 199-277)

Each check writes an error line to stderr on failure and, when self checking
is strict (`selfCheckEnabled`, i.e. the executable is named `mapcode_debug`),
calls `exit(INTERNAL_ERROR)`.  `CheckEffect` records those two observable
effects; `failEffect` is the shared failure tail

    fprintf(stderr, "error: ..."); if (selfCheckEnabled) { exit(INTERNAL_ERROR); } return;

that appears verbatim in every failure branch. -/

structure CheckEffect where
  reported : Bool
  exited : Option ℤ
deriving DecidableEq

def failEffect (strict : Bool) : CheckEffect :=
  { reported := true, exited := if strict then some INTERNAL_ERROR else none }

def okEffect : CheckEffect :=
  { reported := false, exited := none }

/-- Encode-direction self check `selfCheckLatLonToMapcode` (lines 199-242).
The external re-encode call of line 205 is a parameter: its returned count
`nrResults` and its result pairs `results`.  (The lat/lon clamping of lines
203-204 only feeds that external call, so it does not appear here.) -/
def selfCheckLatLonToMapcode (strict : Bool) (nrResults : ℤ)
    (results : List (List Char × List Char)) (territory mapcode : List Char) : CheckEffect :=
  if nrResults ≤ 0 then failEffect strict
  else if scanResults territory mapcode results then okEffect
  else failEffect strict

/-- Decode-direction self check `selfCheckMapcodeToLatLon` (lines 248-277).
The external decode call of line 253 is the parameter `decodeResult`: `none`
when `decodeMapcodeToLatLon` returns a nonzero error, otherwise the decoded
`(foundLat, foundLon)`.  (The source computes `deltaLon` by comparing with
`-0.0`, which equals `0.0`.) -/
def selfCheckMapcodeToLatLon (strict : Bool) (decodeResult : Option (ℚ × ℚ))
    (lat lon : ℚ) : CheckEffect :=
  match decodeResult with
  | none => failEffect strict
  | some (foundLat, foundLon) =>
    let deltaLat := if foundLat - lat ≥ 0 then foundLat - lat else -(foundLat - lat)
    let deltaLon0 := if foundLon - lon > 0 then foundLon - lon else -(foundLon - lon)
    let deltaLon := if deltaLon0 > 180 then 360 - deltaLon0 else deltaLon0
    if deltaLat > DELTA ∨ deltaLon > DELTA then failEffect strict
    else okEffect

/-! ## Spec-side predicates (from the specification's words, for refinement) -/

/-- Modelled from the spec: the encode-direction check's success condition —
"scans the returned CodecResult list for an entry whose code matches exactly
and whose territory matches either exactly or after stripping a dash-prefixed
disambiguator".  A pair `r` is `(code, territory)`. -/
def encodeCheckFoundSpec (territory mapcode : List Char)
    (results : List (List Char × List Char)) : Prop :=
  ∃ r ∈ results, r.1 = mapcode ∧
    (r.2 = territory ∨ ∃ pre : List Char, '-' ∉ pre ∧ r.2 = pre ++ '-' :: territory)

/-- Modelled from the spec: the decode-direction check's failure condition —
decode errors, or `|Δlat| > 0.001`, or the longitude delta (folded to
`360 − Δ` when the raw `Δ` exceeds `180`) exceeds `0.001`. -/
def decodeCheckFailsSpec (decodeResult : Option (ℚ × ℚ)) (lat lon : ℚ) : Prop :=
  decodeResult = none ∨
    ∃ foundLat foundLon, decodeResult = some (foundLat, foundLon) ∧
      (|foundLat - lat| > (0.001 : ℚ) ∨
        (if |foundLon - lon| > 180 then 360 - |foundLon - lon| else |foundLon - lon|) >
          (0.001 : ℚ))

/-! ## Lemmas about the territory-suffix matching -/

theorem foundTerritoryMin_nil : foundTerritoryMin [] = none := rfl

theorem foundTerritoryMin_dash (cs : List Char) :
    foundTerritoryMin ('-' :: cs) = some cs := by
  simp [foundTerritoryMin, strstrDash]

theorem foundTerritoryMin_cons {c : Char} (hc : ¬ c = '-') (cs : List Char) :
    foundTerritoryMin (c :: cs) = foundTerritoryMin cs := by
  simp [foundTerritoryMin, strstrDash, hc]

theorem foundTerritoryMin_eq_some_iff (ft t : List Char) :
    foundTerritoryMin ft = some t ↔
      ∃ pre : List Char, '-' ∉ pre ∧ ft = pre ++ '-' :: t := by
  induction ft with
  | nil =>
    constructor
    · intro h
      exact Option.noConfusion h
    · rintro ⟨pre, -, heq⟩
      exact absurd heq (by cases pre <;> simp)
  | cons c cs ih =>
    by_cases hc : c = '-'
    · subst hc
      rw [foundTerritoryMin_dash]
      constructor
      · intro h
        obtain rfl : cs = t := by injection h
        exact ⟨[], by simp, rfl⟩
      · rintro ⟨pre, hpre, heq⟩
        cases pre with
        | nil =>
          simp only [List.nil_append, List.cons.injEq] at heq
          rw [heq.2]
        | cons p ps =>
          rw [List.cons_append] at heq
          injection heq with hp _
          exact absurd (by rw [← hp]; exact List.mem_cons_self _ _) hpre
    · rw [foundTerritoryMin_cons hc, ih]
      constructor
      · rintro ⟨pre, hpre, rfl⟩
        refine ⟨c :: pre, ?_, by simp⟩
        intro hmem
        rcases List.mem_cons.mp hmem with h | h
        · exact hc h.symm
        · exact hpre h
      · rintro ⟨pre, hpre, heq⟩
        cases pre with
        | nil =>
          simp only [List.nil_append, List.cons.injEq] at heq
          exact absurd heq.1 hc
        | cons p ps =>
          rw [List.cons_append] at heq
          injection heq with _ htl
          refine ⟨ps, ?_, htl⟩
          intro hmem
          exact hpre (List.mem_cons_of_mem _ hmem)

theorem territoryMinMatches_iff (t ft : List Char) :
    territoryMinMatches t ft = true ↔
      ∃ pre : List Char, '-' ∉ pre ∧ ft = pre ++ '-' :: t := by
  rw [← foundTerritoryMin_eq_some_iff]
  unfold territoryMinMatches
  cases h : foundTerritoryMin ft with
  | none => simp
  | some minT =>
    dsimp only
    rw [beq_iff_eq, Option.some.injEq]
    exact eq_comm

theorem resultMatches_iff (t m fm ft : List Char) :
    resultMatches t m fm ft = true ↔
      (fm = m ∧ (ft = t ∨ ∃ pre : List Char, '-' ∉ pre ∧ ft = pre ++ '-' :: t)) := by
  unfold resultMatches
  rw [Bool.and_eq_true, Bool.or_eq_true, beq_iff_eq, beq_iff_eq, territoryMinMatches_iff]
  constructor
  · rintro ⟨h1, h2⟩
    exact ⟨h2.symm, h1.imp Eq.symm id⟩
  · rintro ⟨h1, h2⟩
    exact ⟨h2.imp Eq.symm id, h1.symm⟩

theorem scanResults_eq_true_iff (t m : List Char) (rs : List (List Char × List Char)) :
    scanResults t m rs = true ↔ ∃ r ∈ rs, resultMatches t m r.1 r.2 = true := by
  induction rs with
  | nil => simp [scanResults]
  | cons r rest ih =>
    obtain ⟨fm, ft⟩ := r
    by_cases h : resultMatches t m fm ft = true
    · simp [scanResults, h]
    · simp only [scanResults, if_neg h, ih]
      simp [h]

theorem scanResults_iff_spec (t m : List Char) (rs : List (List Char × List Char)) :
    scanResults t m rs = true ↔ encodeCheckFoundSpec t m rs := by
  rw [scanResults_eq_true_iff]
  unfold encodeCheckFoundSpec
  refine exists_congr fun r => and_congr_right fun _ => ?_
  rw [resultMatches_iff]

/-! ## Lemmas about the two self checks -/

theorem ite_ge_abs (x : ℚ) : (if x ≥ 0 then x else -x) = |x| := by
  split_ifs with h
  · exact (abs_of_nonneg h).symm
  · exact (abs_of_neg (not_le.mp h)).symm

theorem ite_gt_abs (x : ℚ) : (if x > 0 then x else -x) = |x| := by
  split_ifs with h
  · exact (abs_of_pos h).symm
  · exact (abs_of_nonpos (not_lt.mp h)).symm

theorem decode_reported_iff (strict : Bool) (dr : Option (ℚ × ℚ)) (lat lon : ℚ) :
    (selfCheckMapcodeToLatLon strict dr lat lon).reported = true ↔
      decodeCheckFailsSpec dr lat lon := by
  unfold decodeCheckFailsSpec
  cases dr with
  | none => simp [selfCheckMapcodeToLatLon, failEffect]
  | some p =>
    obtain ⟨fl, fo⟩ := p
    simp only [selfCheckMapcodeToLatLon, ite_ge_abs, ite_gt_abs, DELTA]
    by_cases hcond : |fl - lat| > (0.001 : ℚ) ∨
        (if |fo - lon| > 180 then 360 - |fo - lon| else |fo - lon|) > (0.001 : ℚ)
    · rw [if_pos hcond]
      have hr : (failEffect strict).reported = true := rfl
      rw [hr]
      constructor
      · intro _
        exact Or.inr ⟨fl, fo, rfl, hcond⟩
      · intro _
        rfl
    · rw [if_neg hcond]
      have hr : okEffect.reported = false := rfl
      rw [hr]
      constructor
      · intro hfalse
        exact absurd hfalse (by simp)
      · rintro (hnone | ⟨a, b, hab, hP⟩)
        · exact Option.noConfusion hnone
        · simp only [Option.some.injEq, Prod.mk.injEq] at hab
          obtain ⟨rfl, rfl⟩ := hab
          exact absurd hP hcond

theorem encode_reported_iff (strict : Bool) (nrResults : ℤ) (territory mapcode : List Char)
    (results : List (List Char × List Char)) :
    (selfCheckLatLonToMapcode strict nrResults results territory mapcode).reported = true ↔
      (nrResults ≤ 0 ∨ ¬ encodeCheckFoundSpec territory mapcode results) := by
  unfold selfCheckLatLonToMapcode
  split_ifs with h1 h2
  · have hr : (failEffect strict).reported = true := rfl
    rw [hr]
    simp [h1]
  · have hr : okEffect.reported = false := rfl
    rw [hr]
    rw [scanResults_iff_spec] at h2
    simp [h1, h2]
  · have hr : (failEffect strict).reported = true := rfl
    rw [hr]
    rw [scanResults_iff_spec] at h2
    simp [h2]

theorem effect_exited_char (strict : Bool) (e : CheckEffect)
    (he : e = failEffect strict ∨ e = okEffect) :
    e.exited = if strict = true ∧ e.reported = true then some INTERNAL_ERROR else none := by
  rcases he with rfl | rfl <;> cases strict <;> rfl

theorem encode_effect_cases (strict : Bool) (nrResults : ℤ) (territory mapcode : List Char)
    (results : List (List Char × List Char)) :
    selfCheckLatLonToMapcode strict nrResults results territory mapcode = failEffect strict ∨
      selfCheckLatLonToMapcode strict nrResults results territory mapcode = okEffect := by
  unfold selfCheckLatLonToMapcode
  split_ifs <;> simp

theorem decode_effect_cases (strict : Bool) (dr : Option (ℚ × ℚ)) (lat lon : ℚ) :
    selfCheckMapcodeToLatLon strict dr lat lon = failEffect strict ∨
      selfCheckMapcodeToLatLon strict dr lat lon = okEffect := by
  unfold selfCheckMapcodeToLatLon
  cases dr with
  | none => exact Or.inl rfl
  | some p =>
    obtain ⟨fl, fo⟩ := p
    dsimp only
    split_ifs <;> simp

/-! ## The claims -/

/-- C1: in boundary mode the first probe point emitted for a record is claimed
to be the center of its bounding box, `((minLat+maxLat)/2, (minLon+maxLon)/2)`.
The source (lines 574-575, under the comment "Try center.") instead computes
`lat = (maxLat - minLat) / 2.0; lon = (maxLon - minLon) / 2.0` — half the box
extent, not the center.  For the record with `minLat=10, maxLat=20, minLon=40,
maxLon=60` degrees the first probe is `(5, 10)` while the center is `(15, 50)`. -/
theorem boundary_first_probe_not_center :
    (boundaryProbes ⟨40000000, 10000000, 60000000, 20000000⟩).head? =
        some ((5 : ℚ), (10 : ℚ)) ∧
      boxCenter ⟨40000000, 10000000, 60000000, 20000000⟩ = ((15 : ℚ), (50 : ℚ)) ∧
      ((5 : ℚ), (10 : ℚ)) ≠ ((15 : ℚ), (50 : ℚ)) := by
  refine ⟨?_, ?_, by norm_num⟩
  · simp only [boundaryProbes, List.head?]
    norm_num
  · simp only [boxCenter]
    norm_num

/-- C2: the claim says that when the encoder returns zero results in a
corpus-generation mode, no output record is emitted (so every record has
alias count ≥ 1).  In boundary mode (`iShowError = false`) the source merely
skips the `exit` (lines 308-313) and falls through WITHOUT returning, so a
record with header count 0 and no alias lines IS printed; in grid/random mode
(`iShowError = true`) the process exits with `NORMAL_ERROR` instead. -/
theorem zero_results_still_emits_record :
    generateAndOutputMapcodes 0 [] 1 2 false = GenOutcome.record 0 1 2 [] ∧
      ¬ ((0 : ℤ) ≥ 1) ∧
      generateAndOutputMapcodes 0 [] 1 2 true = GenOutcome.exitError NORMAL_ERROR := by
  have hlat : normLat 1 = 1 := normLat_of_range 1 (by norm_num) (by norm_num)
  have hlon : normLon 2 = 2 := normLon_of_range 2 (by norm_num) (by norm_num)
  refine ⟨?_, by norm_num, ?_⟩
  · simp [generateAndOutputMapcodes, hlat, hlon]
  · simp [generateAndOutputMapcodes, hlat, hlon]

/-- C3: the claim says `resetStatistics(n)` zeroes all statistics counters, in
particular the accumulated total number of codec results.  The source (lines
354-359) resets `largestNrOfResults` and its lat/lon but never touches
`totalNrOfResults`: starting from a state with `totalNrOfResults = 5`, the
value survives the reset, and a subsequent point with 4 results makes the
end-of-run total 9 instead of 4. -/
theorem resetStatistics_keeps_total :
    (resetStatistics ⟨0, 5, 3, 1, 2⟩ 10).totalNrOfResults = 5 ∧
      (5 : ℤ) ≠ 0 ∧
      (updateStatistics (resetStatistics ⟨0, 5, 3, 1, 2⟩ 10) 4 0 0).totalNrOfResults = 9 := by
  decide

/-- C4 (amended): since `my_isnan` is `#define my_isnan(x) (false)`, the
NaN-clamping branches of `unitToLatLonDeg` (lines 178-179) are never taken:
the computed radian angles are always converted with `radToDeg`, so a NaN
angle would be propagated to the caller, not replaced by 90°/180°. -/
theorem unitToLatLonDeg_no_clamp (latRad lonRad : DblVal) :
    unitToLatLonDegOut latRad lonRad = (radToDegD latRad, radToDegD lonRad) := rfl

/-- C4 (counterexample): at a NaN latitude/longitude angle the output of
`unitToLatLonDeg` is NaN, not the claimed clamp values 90°/180°. -/
theorem unitToLatLonDeg_propagates_nan :
    unitToLatLonDegOut DblVal.nan DblVal.nan = (DblVal.nan, DblVal.nan) ∧
      DblVal.nan ≠ DblVal.val 90 ∧ DblVal.nan ≠ DblVal.val 180 := by
  refine ⟨rfl, by decide, by decide⟩

/-- C5: the claim says a supplied seed of 0 makes the generator be seeded from
wall-clock time.  In the source (lines 633-639) the wall clock is consulted
only when NO seed argument is supplied (`argc != 5`); a supplied seed of 0
leads to `srand(0)` — a value independent of the wall clock, hence a
reproducible run, contradicting "reproducible iff a nonzero seed is given". -/
theorem supplied_seed_zero_not_wallclock :
    srandValue (some 0) 111 = 0 ∧ srandValue (some 0) 222 = 0 ∧
      (111 : ℤ) ≠ 222 ∧
      srandValue none 111 = 111 ∧ srandValue none 222 = 222 := by
  decide

/-- C6 (amended): after the wraparound normalization of
`generateAndOutputMapcodes` (lines 284-295) the latitude lies in `[-90, 90]`
and the longitude lies in the CLOSED interval `[-180, 180]` (not the half-open
`(-180, 180]` of the claim). -/
theorem normalized_coordinate_ranges (lat lon : ℚ) :
    -90 ≤ normLat lat ∧ normLat lat ≤ 90 ∧ -180 ≤ normLon lon ∧ normLon lon ≤ 180 :=
  ⟨(normLat_mem lat).1, (normLat_mem lat).2, (normLon_mem lon).1, (normLon_mem lon).2⟩

/-- C6 (counterexample): an input longitude of exactly −180 is left unchanged
by the normalization loops, and −180 does not lie in the claimed half-open
interval `(-180, 180]`. -/
theorem normLon_maps_neg180_to_neg180 :
    normLon (-180) = -180 ∧ ¬ ((-180 : ℚ) < normLon (-180)) := by
  have h : normLon (-180) = -180 := normLon_of_range (-180) (by norm_num) (by norm_num)
  exact ⟨h, by rw [h]; norm_num⟩

/-- C7: the decode-direction round-trip check reports an error iff the decode
itself errors, or the absolute latitude difference exceeds 0.001°, or the
longitude difference — folded to `360 − Δ` whenever the raw `Δ` exceeds 180° —
exceeds 0.001°. -/
theorem decode_check_fails_iff (strict : Bool) (decodeResult : Option (ℚ × ℚ))
    (lat lon : ℚ) :
    (selfCheckMapcodeToLatLon strict decodeResult lat lon).reported = true ↔
      decodeCheckFailsSpec decodeResult lat lon :=
  decode_reported_iff strict decodeResult lat lon

/-- C8: the encode-direction round-trip check succeeds exactly when some
re-encode result has a code equal to the expected code and a territory equal
to the expected territory either exactly or after stripping everything up to
and including a dash; in particular a returned territory `US-IN` matches an
expected territory `IN`. -/
theorem encode_check_success_iff :
    (∀ (strict : Bool) (territory mapcode : List Char)
        (results : List (List Char × List Char)),
      (selfCheckLatLonToMapcode strict ((results.length : ℤ)) results territory
            mapcode).reported = false ↔
        encodeCheckFoundSpec territory mapcode results) ∧
      resultMatches ("IN".toList) ("8DH.JWV".toList) ("8DH.JWV".toList)
          ("US-IN".toList) = true := by
  constructor
  · intro strict t m rs
    rw [← Bool.not_eq_true, encode_reported_iff]
    rw [not_or, not_not]
    constructor
    · intro h
      exact h.2
    · intro hspec
      refine ⟨?_, hspec⟩
      obtain ⟨r, hr, -⟩ := hspec
      have hpos : 0 < (rs.length : ℤ) := by
        exact_mod_cast List.length_pos.mpr (List.ne_nil_of_mem hr)
      omega
  · decide

/-- C9: every round-trip verification failure (in either direction) is
reported to the diagnostic stream, and exactly in strict (debug) mode a
failure additionally terminates the process with the internal-error status 2;
in non-strict mode nothing is exited and generation continues. -/
theorem selfcheck_failure_policy (strict : Bool) (nrResults : ℤ)
    (territory mapcode : List Char) (results : List (List Char × List Char))
    (decodeResult : Option (ℚ × ℚ)) (lat lon : ℚ) :
    INTERNAL_ERROR = 2 ∧
      ((selfCheckLatLonToMapcode strict nrResults results territory mapcode).reported = true ↔
        (nrResults ≤ 0 ∨ ¬ encodeCheckFoundSpec territory mapcode results)) ∧
      ((selfCheckLatLonToMapcode strict nrResults results territory mapcode).exited =
        if strict = true ∧
            (selfCheckLatLonToMapcode strict nrResults results territory mapcode).reported = true
          then some INTERNAL_ERROR else none) ∧
      ((selfCheckMapcodeToLatLon strict decodeResult lat lon).reported = true ↔
        decodeCheckFailsSpec decodeResult lat lon) ∧
      ((selfCheckMapcodeToLatLon strict decodeResult lat lon).exited =
        if strict = true ∧
            (selfCheckMapcodeToLatLon strict decodeResult lat lon).reported = true
          then some INTERNAL_ERROR else none) :=
  ⟨rfl,
   encode_reported_iff strict nrResults territory mapcode results,
   effect_exited_char strict _ (encode_effect_cases strict nrResults territory mapcode results),
   decode_reported_iff strict decodeResult lat lon,
   effect_exited_char strict _ (decode_effect_cases strict decodeResult lat lon)⟩

/-- C10: when a re-encode result's territory contains no dash and differs from
the expected territory, the C source compares `strcmp(territory, NULL)` (its
`strstr` returned a null pointer); the total embedding guards that branch
(`territoryMinMatches` returns `false` when `foundTerritoryMin` is `none`),
and the guard is reachable from the check's public interface: expected
territory `IN` against a result whose territory `USA` has no dash. -/
theorem null_strcmp_guard_reachable :
    strstrDash ("USA".toList) = none ∧
      (("IN".toList) == ("USA".toList)) = false ∧
      territoryMinMatches ("IN".toList) ("USA".toList) = false ∧
      (selfCheckLatLonToMapcode true 1 [(("8DH.JWV".toList), ("USA".toList))]
          ("IN".toList) ("8DH.JWV".toList)).reported = true := by
  decide
